import Mathlib

/-!
Shallow embedding of the PushButton_Linux repository (Button / ResetButton
classes and their AUXIO collaborator boundary), together with theorems
checking the repository's specification against the code.

The repository contains several near-duplicate revisions of the same class.
Each definition below names the revision (source part and lines) it embeds.
-/

namespace PushButton

/-- Edge selector passed to the AUXIO collaborator
(`AUXI::Edge::Both/Rising/Falling` in the source). -/
inductive Edge where
  | Both
  | Rising
  | Falling
deriving DecidableEq, Repr

/-- Direction of a kernel edge event (rising or falling transition). -/
inductive Dir where
  | rising
  | falling
deriving DecidableEq, Repr

/-! ## Line Reader: raw and logical reads

Embeds `Button::value` and `Button::state` from src/unnamed/part_003
(lines 77-91); the bcm2835 revision in src/unnamed/part_004 (lines 35-57)
computes the same function of the raw level and the pull mode.
The pull mode (`pud`) convention is 0=OFF, 1=DOWN, 2=UP. -/

/-- Raw digital level of the line: `Button::value` masks the collaborator's
read to one bit (`v & 1`, part_003 lines 77-81). `rawRead` is the integer
the collaborator returned. -/
def Button.value (rawRead : Nat) : Nat :=
  rawRead % 2

/-- Logical pressed state: `Button::state` (part_003 lines 83-91).
With pull-up (`pud == 2`) the button is active-low: pressed (1) exactly when
the raw level is 0; otherwise the raw level is returned unchanged
(active-high). -/
def Button.state (pud rawRead : Nat) : Nat :=
  let val := Button.value rawRead
  if pud = 2 then
    if val = 0 then 1 else 0
  else
    val

/-! ## Line configuration: `Button::begin`

Embeds the legacy bcm2835 revision, src/unnamed/part_004 lines 10-22: a
pin-range guard, then two hardware calls. The trace of collaborator calls
is returned explicitly so "before any hardware request" is checkable. -/

/-- One call to the bcm2835 collaborator made by `Button::begin`. -/
inductive ChipCall where
  | fsel (pin mode : Nat)
  | setPud (pin pud : Nat)
deriving DecidableEq, Repr

/-- Message set by `Button::begin` when the pin is out of range
(part_004 line 14). -/
def wrongRangeMsg : String :=
  "Error Button object: pin configuration is in wrong range."

/-- `BCM2835_GPIO_FSEL_INPT` constant (input function select). -/
def FSEL_INPT : Nat := 0

/-- `Button::begin` (part_004 lines 10-22): returns the success flag, the
`errorMessage` field after the call (`prevErr` is its value before the
call; the success path leaves it untouched), and the list of collaborator
calls performed. -/
def Button.begin (pin pud : Nat) (prevErr : String) :
    Bool × String × List ChipCall :=
  if pin > 30 then
    (false, wrongRangeMsg, [])
  else
    (true, prevErr, [ChipCall.fsel pin FSEL_INPT, ChipCall.setPud pin pud])

/-! ## Theorems for claims C1 and C7 -/

/-- C1: for every pair of configured polarity and raw electrical level, the
logical pressed state returned by `Button::state` equals `raw_level == High`
when the polarity is active-high, and `raw_level == Low` when the polarity
is active-low; active-low is exactly the case `pud == 2` (pull-up). The
quantification over all `pud` and all raw reads covers all 4
(polarity, raw_level) cases. -/
theorem state_polarity_exhaustive (pud rawRead : Nat) :
    (pud = 2 → (Button.state pud rawRead = 1 ↔ Button.value rawRead = 0))
    ∧ (pud ≠ 2 → (Button.state pud rawRead = 1 ↔ Button.value rawRead = 1))
    ∧ (Button.state pud rawRead = 0 ∨ Button.state pud rawRead = 1) := by
  unfold Button.state Button.value
  rcases Nat.mod_two_eq_zero_or_one rawRead with h | h <;>
    by_cases hp : pud = 2 <;> simp [h, hp]

/-- C1 witness: the four concrete (polarity, raw_level) cases evaluated. -/
theorem state_polarity_exhaustive_witness :
    Button.state 2 0 = 1 ∧ Button.state 2 1 = 0
    ∧ Button.state 0 1 = 1 ∧ Button.state 0 0 = 0
    ∧ ((2 : Nat) = 2 → (Button.state 2 0 = 1 ↔ Button.value 0 = 0)) := by
  refine ⟨by decide, by decide, by decide, by decide, ?_⟩
  exact (state_polarity_exhaustive 2 0).1

/-- C7: for every line offset above the configured maximum (legacy bound:
offset > 30) and any pull mode and prior error message, `Button::begin`
fails, sets `errorMessage` to the invalid-range message, and performs no
collaborator call (empty hardware-call trace: the error is returned before
any hardware request is attempted). -/
theorem begin_invalid_offset (pin pud : Nat) (prevErr : String)
    (h : 30 < pin) :
    Button.begin pin pud prevErr = (false, wrongRangeMsg, []) := by
  unfold Button.begin
  simp [Nat.lt_iff_add_one_le.mp h, show pin > 30 from h]

/-- C7 witness: offset 31 is rejected with no hardware calls. -/
theorem begin_invalid_offset_witness :
    30 < 31 ∧ Button.begin 31 2 "" = (false, wrongRangeMsg, []) :=
  ⟨by decide, begin_invalid_offset 31 2 "" (by decide)⟩

/-! ## AUXIO collaborator boundary

The AUXI class lives in the sibling AUXIO_Linux library and is not under
src/; the spec treats it as an opaque, fallible, synchronous collaborator
(spec section 6: `request_line`, `release_line`, interrupt thread control).
The state it owns and the outcomes of its fallible calls are modelled
abstractly below. -/

/-- Observable state of the AUXI collaborator for one line. -/
structure AuxiSt where
  lineRequested : Bool
  monitorRunning : Bool
  edgeSel : Edge
  debounce : Nat
deriving DecidableEq, Repr

/-- Environment: outcomes the collaborator's fallible calls would return
in this run, and the error text it would report on failure. -/
structure Env where
  beginOk : Bool
  interruptOk : Bool
  auxiErr : String
deriving DecidableEq, Repr

/-- Modelled from the spec: `AUXI::begin` requests the line as input
(spec section 6 `request_line`, a fallible synchronous call). On success
the line is requested; on failure the state is unchanged. -/
def AUXI.begin (env : Env) (a : AuxiSt) : Bool × AuxiSt :=
  if env.beginOk then (true, { a with lineRequested := true }) else (false, a)

/-- Modelled from the spec: `AUXI::beginInterrupt` starts the internal
event thread with the given edge selection and debounce window (a fallible
synchronous call). On failure the state is unchanged. -/
def AUXI.beginInterrupt (env : Env) (sel : Edge) (deb : Nat) (a : AuxiSt) :
    Bool × AuxiSt :=
  if env.interruptOk then
    (true, { a with monitorRunning := true, edgeSel := sel, debounce := deb })
  else (false, a)

/-- Modelled from the spec: `AUXI::endInterrupt` stops the monitor task;
idempotent (stopping a stopped monitor is a no-op, spec section 4.2). -/
def AUXI.endInterrupt (a : AuxiSt) : AuxiSt :=
  { a with monitorRunning := false }

/-- Modelled from the spec: `AUXI::end` releases the line
(spec section 4.1 `release`: idempotent, safe on a never-acquired line). -/
def AUXI.endLine (a : AuxiSt) : AuxiSt :=
  { a with lineRequested := false }

/-! ## Edge-monitor setup: `Button::beginInterrupt`

Embeds the numeric-edge overload of src/unnamed/part_002, lines 676-704
(the revision at lines 807-845 is the same function with a shorter edge
error message). The callback is modelled as `Option Unit`: the code only
tests it against null here. -/

/-- State of a part_002-revision Button object: its `errorMessage` field
and the AUXI member's state. -/
structure BState where
  errorMessage : String
  auxi : AuxiSt
deriving DecidableEq, Repr

/-- Error message for a null callback (part_002 line 679). -/
def nullCbMsg : String := "Button: callback is null."

/-- Error message for a bad numeric edge selector (part_002 line 695). -/
def badEdgeMsg : String := "edge selection is not correct (must be 0,1,2)."

/-- `Button::beginInterrupt(uint8_t edge, uint32_t debounce_us,
GpioCallback cb)` (part_002 lines 676-704): null-callback check, then
`_auxi.begin()` ("Ensure line is requested as input"), then the numeric
edge switch, then `_auxi.beginInterrupt`. Returns the success flag and the
updated Button state. -/
def Button.beginInterrupt (edge deb : Nat) (cb : Option Unit) (env : Env)
    (s : BState) : Bool × BState :=
  match cb with
  | none => (false, { s with errorMessage := nullCbMsg })
  | some _ =>
    let r1 := AUXI.begin env s.auxi
    if r1.1 = false then
      (false, { errorMessage := "AUXI begin() failed: " ++ env.auxiErr,
                auxi := r1.2 })
    else
      let sel? : Option Edge :=
        if edge = 0 then some Edge.Both
        else if edge = 1 then some Edge.Rising
        else if edge = 2 then some Edge.Falling
        else none
      match sel? with
      | none => (false, { errorMessage := badEdgeMsg, auxi := r1.2 })
      | some sel =>
        let r2 := AUXI.beginInterrupt env sel deb r1.2
        if r2.1 = false then
          (false,
           { errorMessage := "AUXI beginInterrupt() failed: " ++ env.auxiErr,
             auxi := r2.2 })
        else (true, { errorMessage := s.errorMessage, auxi := r2.2 })

/-! ## Theorems for claims C4, C5, C9 -/

/-- C4: for every edge selector, debounce value, collaborator environment
and starting state, `beginInterrupt` with a null/absent callback returns
failure with the no-callback error message, and the monitor/line state is
left completely unchanged (no thread started, no line request performed by
that call). -/
theorem beginInterrupt_null_callback (edge deb : Nat) (env : Env)
    (s : BState) :
    Button.beginInterrupt edge deb none env s
      = (false, { s with errorMessage := nullCbMsg }) := by
  rfl

/-- C5 counterexample: on a never-configured handle (line not requested)
with a present callback and a cooperative collaborator, `beginInterrupt`
does not fail at all: it succeeds and requests the line itself, so the
claim that every such call yields a not-configured failure is false. -/
theorem beginInterrupt_unconfigured_cex :
    (Button.beginInterrupt 0 5000 (some ()) ⟨true, true, ""⟩
        ⟨"", ⟨false, false, Edge.Both, 0⟩⟩).1 = true
    ∧ (Button.beginInterrupt 0 5000 (some ()) ⟨true, true, ""⟩
        ⟨"", ⟨false, false, Edge.Both, 0⟩⟩).2.auxi.lineRequested = true := by
  exact ⟨rfl, rfl⟩

/-- C5 amended: starting the edge monitor on a handle that has not been
configured never produces a not-configured error; instead `beginInterrupt`
requests the line as input itself. If the underlying request fails, the
call fails with the acquisition-failure message (not a not-configured
error) and the line stays unrequested; if the underlying request succeeds,
the call has configured the line itself. -/
theorem beginInterrupt_unconfigured_configures (deb : Nat) (env : Env)
    (s : BState) (_h : s.auxi.lineRequested = false) :
    (env.beginOk = false →
      Button.beginInterrupt 0 deb (some ()) env s
        = (false, { s with errorMessage :=
            "AUXI begin() failed: " ++ env.auxiErr }))
    ∧ (env.beginOk = true →
      (Button.beginInterrupt 0 deb (some ()) env s).2.auxi.lineRequested
        = true) := by
  constructor
  · intro hb
    simp [Button.beginInterrupt, AUXI.begin, hb]
  · intro hb
    cases hi : env.interruptOk <;>
      simp [Button.beginInterrupt, AUXI.begin, AUXI.beginInterrupt, hb, hi]

/-- C5 amended witness: concrete unconfigured state, both environments. -/
theorem beginInterrupt_unconfigured_configures_witness :
    ((⟨"", ⟨false, false, Edge.Both, 0⟩⟩ : BState).auxi.lineRequested = false)
    ∧ (((⟨false, true, "busy"⟩ : Env).beginOk = false →
        Button.beginInterrupt 0 5000 (some ()) ⟨false, true, "busy"⟩
            ⟨"", ⟨false, false, Edge.Both, 0⟩⟩
          = (false, { errorMessage := "AUXI begin() failed: " ++ "busy",
                      auxi := ⟨false, false, Edge.Both, 0⟩ }))
      ∧ ((⟨false, true, "busy"⟩ : Env).beginOk = true →
        (Button.beginInterrupt 0 5000 (some ()) ⟨false, true, "busy"⟩
            ⟨"", ⟨false, false, Edge.Both, 0⟩⟩).2.auxi.lineRequested
          = true)) :=
  ⟨rfl, beginInterrupt_unconfigured_configures 5000 ⟨false, true, "busy"⟩
      ⟨"", ⟨false, false, Edge.Both, 0⟩⟩ rfl⟩

/-- C9: for every numeric edge selector outside {0, 1, 2} and a non-null
callback, when the underlying line request succeeds, `beginInterrupt`
returns false with the edge-selection error message - but the failed call
has already requested the line as input, so the line is configured as a
side effect and no monitor is started. -/
theorem beginInterrupt_bad_edge_after_begin (edge deb : Nat) (env : Env)
    (s : BState) (he : 2 < edge) (hb : env.beginOk = true) :
    Button.beginInterrupt edge deb (some ()) env s
      = (false, { errorMessage := badEdgeMsg,
                  auxi := { s.auxi with lineRequested := true } }) := by
  have h0 : edge ≠ 0 := by omega
  have h1 : edge ≠ 1 := by omega
  have h2 : edge ≠ 2 := by omega
  simp [Button.beginInterrupt, AUXI.begin, hb, h0, h1, h2]

/-- C9 witness: edge selector 3 with a cooperative line request. -/
theorem beginInterrupt_bad_edge_after_begin_witness :
    2 < 3 ∧ (⟨true, true, ""⟩ : Env).beginOk = true
    ∧ Button.beginInterrupt 3 5000 (some ()) ⟨true, true, ""⟩
        ⟨"", ⟨false, false, Edge.Both, 0⟩⟩
      = (false, { errorMessage := badEdgeMsg,
                  auxi := ⟨true, false, Edge.Both, 0⟩ }) :=
  ⟨by decide, rfl,
   beginInterrupt_bad_edge_after_begin 3 5000 ⟨true, true, ""⟩
     ⟨"", ⟨false, false, Edge.Both, 0⟩⟩ (by decide) rfl⟩

/-! ## Teardown: `Button::clean`

Embeds the revision of src/unnamed/part_003, lines 67-75: if the interrupt
flag is set, stop the interrupt and clear the flag; then release the line.
(The part_002 revision, lines 728-732, is `stopInterrupt(); _auxi.clean()`,
delegating both steps to AUXI.) The AUXI release primitives are the
spec-modelled `AUXI.endInterrupt` / `AUXI.endLine` above. -/

/-- State of a part_003-revision Button object relevant to teardown: its
`_irqActive` flag and the AUXI member's state. -/
structure ButtonSt where
  irqActive : Bool
  auxi : AuxiSt
deriving DecidableEq, Repr

/-- `Button::clean` (part_003 lines 67-75). It returns the new state and
cannot fail (void in the source; no error message is ever set). -/
def Button.clean (s : ButtonSt) : ButtonSt :=
  let s1 :=
    if s.irqActive then
      { s with auxi := AUXI.endInterrupt s.auxi, irqActive := false }
    else s
  { s1 with auxi := AUXI.endLine s1.auxi }

/-- C8: teardown is idempotent: `clean(); clean()` has the same effect as a
single `clean()` on every state, and on a never-configured (or
already-released) handle with no interrupt active, `clean` is a no-op. -/
theorem clean_idempotent (s : ButtonSt) :
    Button.clean (Button.clean s) = Button.clean s
    ∧ (s.irqActive = false → s.auxi.lineRequested = false →
        Button.clean s = s) := by
  constructor
  · cases s with
    | mk irq a =>
      cases irq <;> simp [Button.clean, AUXI.endInterrupt, AUXI.endLine]
  · intro h1 h2
    cases s with
    | mk irq a =>
      cases a with
      | mk lr mr es d =>
        simp_all [Button.clean, AUXI.endLine]

/-- C8 witness: a never-configured handle, cleaned twice. -/
theorem clean_idempotent_witness :
    Button.clean (Button.clean ⟨false, ⟨false, false, Edge.Both, 0⟩⟩)
      = Button.clean ⟨false, ⟨false, false, Edge.Both, 0⟩⟩
    ∧ ((⟨false, ⟨false, false, Edge.Both, 0⟩⟩ : ButtonSt).irqActive = false →
       (⟨false, ⟨false, false, Edge.Both, 0⟩⟩ : ButtonSt).auxi.lineRequested
          = false →
       Button.clean ⟨false, ⟨false, false, Edge.Both, 0⟩⟩
          = ⟨false, ⟨false, false, Edge.Both, 0⟩⟩) :=
  clean_idempotent ⟨false, ⟨false, false, Edge.Both, 0⟩⟩

/-! ## Hold-Action behaviour: `ResetButton::check`

Embeds src/unnamed/part_002, lines 752-779 (identical in part_003 lines
97-124; part_004 lines 62-86 is the bcm2835 revision with the same
structure). The observable behaviour is modelled as the sequence of
side effects performed plus an outcome; the trailing `for (;;) sleep`
loops, which never terminate, are modelled by the `divergedSleeping`
outcome. `sample n` is the value the n-th call to the logical read
(`read()` / `state()`) returns. -/

/-- One observable side effect of `ResetButton::check`. -/
inductive Effect where
  | print (s : String)
  | sleepSec (n : Nat)
  | sysCmd (c : String)
deriving DecidableEq, Repr

/-- Outcome of a `ResetButton::check` call: either the function returns a
boolean to its caller, or it never returns (it is stuck in the trailing
unconditional sleep loop). -/
inductive CheckOutcome where
  | returned (b : Bool)
  | divergedSleeping
deriving DecidableEq, Repr

/-- Full observable run of one `ResetButton::check` call. -/
structure CheckRun where
  outcome : CheckOutcome
  effects : List Effect
  samplesUsed : Nat
deriving DecidableEq, Repr

/-- Countdown effects emitted between the two samples (part_002 lines
758-765): the banner and the 4 one-second steps. -/
def countdownEffects : List Effect :=
  [Effect.print "System is Resetting ... !", Effect.sleepSec 1,
   Effect.print "3 Sec", Effect.sleepSec 1,
   Effect.print "2 Sec", Effect.sleepSec 1,
   Effect.print "1 Sec", Effect.sleepSec 1]

/-- Effects of the shutdown branch (part_002 lines 767-771). -/
def shutdownTail : List Effect :=
  [Effect.print "System is Shutdown ... !", Effect.sleepSec 1,
   Effect.sysCmd "sudo /sbin/shutdown -h now"]

/-- Effects of the reboot branch (part_002 line 774). -/
def rebootTail : List Effect :=
  [Effect.sysCmd "sudo /sbin/reboot"]

/-- `ResetButton::check` (part_002 lines 752-779): `sample 0` is the
initial logical read, `sample 1` the re-read after the countdown. -/
def ResetButton.check (sample : Nat → Bool) : CheckRun :=
  if sample 0 = false then
    { outcome := CheckOutcome.returned false, effects := [], samplesUsed := 1 }
  else if sample 1 = true then
    { outcome := CheckOutcome.divergedSleeping,
      effects := countdownEffects ++ shutdownTail, samplesUsed := 2 }
  else
    { outcome := CheckOutcome.divergedSleeping,
      effects := countdownEffects ++ rebootTail, samplesUsed := 2 }

/-- C3: `ResetButton::check` behaves as the Hold-Action state machine: a
not-pressed initial sample returns false immediately with no side effects
and only that one sample taken; a pressed initial sample runs the fixed
countdown of exactly 4 one-second steps, re-samples only at the end of the
countdown (2 samples in total), and then requests shutdown if still
pressed, otherwise requests reboot. -/
theorem resetButton_check_hold_action (sample : Nat → Bool) :
    (sample 0 = false →
      ResetButton.check sample
        = { outcome := CheckOutcome.returned false, effects := [],
            samplesUsed := 1 })
    ∧ (sample 0 = true →
        (ResetButton.check sample).samplesUsed = 2
        ∧ (ResetButton.check sample).effects.take 8 = countdownEffects
        ∧ countdownEffects.count (Effect.sleepSec 1) = 4
        ∧ (sample 1 = true →
            (ResetButton.check sample).effects
              = countdownEffects ++ shutdownTail)
        ∧ (sample 1 = false →
            (ResetButton.check sample).effects
              = countdownEffects ++ rebootTail)) := by
  constructor
  · intro h0
    simp [ResetButton.check, h0]
  · intro h0
    cases h1 : sample 1 <;>
      simp [ResetButton.check, h0, h1, countdownEffects, shutdownTail,
        rebootTail]

/-- C3 witness: the always-pressed sample sequence runs the countdown and
requests shutdown. -/
theorem resetButton_check_hold_action_witness :
    ((fun _ => true : Nat → Bool) 0 = false →
      ResetButton.check (fun _ => true)
        = { outcome := CheckOutcome.returned false, effects := [],
            samplesUsed := 1 })
    ∧ ((fun _ => true : Nat → Bool) 0 = true →
        (ResetButton.check (fun _ => true)).samplesUsed = 2
        ∧ (ResetButton.check (fun _ => true)).effects.take 8
            = countdownEffects
        ∧ countdownEffects.count (Effect.sleepSec 1) = 4
        ∧ ((fun _ => true : Nat → Bool) 1 = true →
            (ResetButton.check (fun _ => true)).effects
              = countdownEffects ++ shutdownTail)
        ∧ ((fun _ => true : Nat → Bool) 1 = false →
            (ResetButton.check (fun _ => true)).effects
              = countdownEffects ++ rebootTail)) :=
  resetButton_check_hold_action (fun _ => true)

/-- C10: `ResetButton::check` returns to its caller exactly when the
initial sample is not pressed; whenever the initial sample is pressed, the
run ends in the unconditional infinite sleep loop (it never returns), with
the shutdown or reboot system command as its last effect; in particular
the trailing `return false` is unreachable, so the function never returns
true. -/
theorem resetButton_check_no_return_when_pressed (sample : Nat → Bool) :
    ((ResetButton.check sample).outcome = CheckOutcome.returned false
      ↔ sample 0 = false)
    ∧ (ResetButton.check sample).outcome ≠ CheckOutcome.returned true
    ∧ (sample 0 = true →
        (ResetButton.check sample).outcome = CheckOutcome.divergedSleeping
        ∧ (ResetButton.check sample).effects.getLast?
            = some (Effect.sysCmd
                (if sample 1 then "sudo /sbin/shutdown -h now"
                 else "sudo /sbin/reboot"))) := by
  cases h0 : sample 0 <;> cases h1 : sample 1 <;>
    simp [ResetButton.check, h0, h1, countdownEffects, shutdownTail,
      rebootTail]

/-- C10 witness: pressed then released diverges after the reboot command;
never pressed returns false. -/
theorem resetButton_check_no_return_when_pressed_witness :
    (ResetButton.check (fun n => n = 0)).outcome
        = CheckOutcome.divergedSleeping
    ∧ (ResetButton.check (fun n => n = 0)).effects.getLast?
        = some (Effect.sysCmd "sudo /sbin/reboot")
    ∧ (ResetButton.check (fun _ => false)).outcome
        = CheckOutcome.returned false := by
  have h := resetButton_check_no_return_when_pressed (fun n => n = 0)
  have h2 := (h.2.2 (by decide))
  refine ⟨h2.1, ?_, ?_⟩
  · have := h2.2
    simpa using this
  · exact ((resetButton_check_no_return_when_pressed (fun _ => false)).1).mpr
      rfl

/-! ## Edge Monitor core (spec-modelled)

The debounce loop and monitor-task management that the spec names as this
system's core run inside the AUXIO library's event thread, which is not
under src/ (`Button::beginInterrupt` only forwards to
`AUXI::beginInterrupt`). They are modelled here from spec sections 4.2
and 5. -/

/-- Does the edge selector accept an event of this direction
(spec section 4.2, step 3)? -/
def edgeAccepts (sel : Edge) (d : Dir) : Bool :=
  match sel, d with
  | Edge.Both, _ => true
  | Edge.Rising, Dir.rising => true
  | Edge.Falling, Dir.falling => true
  | _, _ => false

/-- Modelled from the spec: one iteration of the Edge Monitor loop
(spec section 4.2, steps 1-4). `last` is the timestamp of the last
accepted event (none before the first acceptance), `ev` the raw kernel
event `(timestamp, direction)`. Returns the new last-accepted state and
`some ev` when the callback is invoked, `none` when the event is discarded
silently. The debounce check precedes the selector check, and the
last-accepted timestamp is updated only on callback invocation. -/
def monitorStep (d : Nat) (sel : Edge) (last : Option Nat)
    (ev : Nat × Dir) : Option Nat × Option (Nat × Dir) :=
  match last with
  | some t0 =>
    if ev.1 - t0 < d then (some t0, none)
    else if edgeAccepts sel ev.2 then (some ev.1, some ev)
    else (some t0, none)
  | none =>
    if edgeAccepts sel ev.2 then (some ev.1, some ev) else (none, none)

/-- Modelled from the spec: the Edge Monitor loop run over a finite raw
event sequence, collecting the callback invocations in order
(spec section 5: filtering preserves order, only drops). -/
def monitorRun (d : Nat) (sel : Edge) :
    Option Nat → List (Nat × Dir) → List (Nat × Dir)
  | _, [] => []
  | last, ev :: rest =>
    match monitorStep d sel last ev with
    | (last2, some e) => e :: monitorRun d sel last2 rest
    | (last2, none) => monitorRun d sel last2 rest

/-- C2: debounce filtering. Any raw event arriving less than `d` after the
last accepted event is discarded silently (no callback, no state change);
any other event whose direction the selector accepts invokes the callback
and becomes the new last-accepted event. For the synthetic edge sequence
at times `[0, d/2, d/2, 2d]` exactly 2 callbacks fire - the events at
`t = 0` and `t = 2d` - and the two mid-window edges are dropped. -/
theorem monitor_debounce_filter (d : Nat) (hd : 0 < d) (dir : Dir) :
    (∀ (sel : Edge) (t0 t : Nat) (dx : Dir), t - t0 < d →
      monitorStep d sel (some t0) (t, dx) = (some t0, none))
    ∧ (∀ (sel : Edge) (t0 t : Nat) (dx : Dir), ¬(t - t0 < d) →
      edgeAccepts sel dx = true →
      monitorStep d sel (some t0) (t, dx) = (some t, some (t, dx)))
    ∧ monitorRun d Edge.Both none
        [(0, dir), (d / 2, dir), (d / 2, dir), (2 * d, dir)]
      = [(0, dir), (2 * d, dir)] := by
  refine ⟨?_, ?_, ?_⟩
  · intro sel t0 t dx h
    simp [monitorStep, h]
  · intro sel t0 t dx h ha
    simp [monitorStep, h, ha]
  · have h1 : d / 2 < d := Nat.div_lt_self hd (by decide)
    have h2 : ¬(2 * d < d) := by omega
    cases dir <;>
      simp [monitorRun, monitorStep, edgeAccepts, h1, h2]

/-- C2 witness: debounce window 4, rising edges at times 0, 2, 2, 8. -/
theorem monitor_debounce_filter_witness :
    0 < 4
    ∧ ((∀ (sel : Edge) (t0 t : Nat) (dx : Dir), t - t0 < 4 →
        monitorStep 4 sel (some t0) (t, dx) = (some t0, none))
      ∧ (∀ (sel : Edge) (t0 t : Nat) (dx : Dir), ¬(t - t0 < 4) →
        edgeAccepts sel dx = true →
        monitorStep 4 sel (some t0) (t, dx) = (some t, some (t, dx)))
      ∧ monitorRun 4 Edge.Both none
          [(0, Dir.rising), (4 / 2, Dir.rising), (4 / 2, Dir.rising),
           (2 * 4, Dir.rising)]
        = [(0, Dir.rising), (2 * 4, Dir.rising)]) :=
  ⟨by decide, monitor_debounce_filter 4 (by decide) Dir.rising⟩

/-- Setup-time errors of the Edge Monitor `start` operation
(spec section 7). -/
inductive MonitorError where
  | notConfigured
  | noCallback
  | alreadyRunning
deriving DecidableEq, Repr

/-- Modelled from the spec: the Edge Monitor `start` precondition checks
(spec section 4.2): the handle must be configured, the callback present,
and no monitor task already active on this handle. On any error the
running flag is unchanged; on success the monitor task is launched
(running becomes true). Returns the result and the new running flag. -/
def Monitor.start (configured hasCb : Bool) (running : Bool) :
    Except MonitorError Unit × Bool :=
  if configured = false then (Except.error MonitorError.notConfigured, running)
  else if hasCb = false then (Except.error MonitorError.noCallback, running)
  else if running then (Except.error MonitorError.alreadyRunning, running)
  else (Except.ok (), true)

/-- Modelled from the spec: the Edge Monitor `stop` operation
(spec section 4.2): idempotent, never an error; the task is no longer
running afterwards. -/
def Monitor.stop (_running : Bool) : Bool := false

/-- C6: at most one monitor task is active per handle: after a first
`start` succeeded (so the monitor is running), a second `start` without an
intervening `stop` fails with the already-running error and does not
launch a second task (the running flag is exactly the one task's, and the
state is unchanged); after a `stop`, `start` can succeed again. -/
theorem monitor_start_already_running (configured hasCb : Bool)
    (h : Monitor.start configured hasCb false = (Except.ok (), true)) :
    Monitor.start configured hasCb true
      = (Except.error MonitorError.alreadyRunning, true)
    ∧ Monitor.start configured hasCb (Monitor.stop true)
      = (Except.ok (), true) := by
  cases configured <;> cases hasCb <;>
    simp_all [Monitor.start, Monitor.stop]

/-- C6 witness: configured handle with a callback: second start rejected,
start after stop succeeds. -/
theorem monitor_start_already_running_witness :
    Monitor.start true true false = (Except.ok (), true)
    ∧ (Monitor.start true true true
        = (Except.error MonitorError.alreadyRunning, true)
      ∧ Monitor.start true true (Monitor.stop true)
        = (Except.ok (), true)) :=
  ⟨rfl, monitor_start_already_running true true rfl⟩

end PushButton
